import Mathlib

/-!
Verification of the asynchronous result-resolution core of the replicate
client library (replicate/prediction.py, replicate/version.py,
replicate/training.py), as a shallow embedding.

A prediction or training ("job") is observed by the client as a sequence of
snapshots: the state it holds when a loop begins, followed by the states
returned by each successive reload.  The polling loops of prediction.py
(wait, output_iterator) are embedded as functions over that observation
sequence; the list of future snapshots doubles as fuel, and running out of
fuel models a loop that never observes a terminal status.
-/

namespace Replicate

/-- Python exception kinds raised by the embedded code paths.  valueError is
the concrete class raised by the validation checks in
PredictionCollection.create and TrainingCollection.create (the spec calls
this error kind ValidationError). -/
inductive PyErr where
  | keyError (key : String)
  | typeError
  | attributeError
  | valueError (msg : String)
  | replicateException (msg : String)
  | modelError (err : Option String)
deriving DecidableEq

/-- One observed snapshot of a job, with the fields the polling loops of
prediction.py read: status (a plain string in the source), output (None or a
list, for array-typed outputs), and error. -/
structure JState (α : Type) where
  status : String
  output : Option (List α)
  error : Option String
deriving DecidableEq

/-- The test `self.status in ["succeeded", "failed", "canceled"]` from
prediction.py (lines 107 and 114). -/
def isTerminal (status : String) : Bool :=
  ["succeeded", "failed", "canceled"].contains status

/-- Python `self.output or []` (None and the empty list both give []). -/
def orEmpty {α : Type} (o : Option (List α)) : List α :=
  o.getD []

/-- How an embedded run of Prediction.output_iterator ends: normally, by
raising ModelError (carrying Prediction.error), or by running out of
observation fuel (the Python loop would still be polling). -/
inductive IterEnd where
  | done
  | err (e : Option String)
  | noFuel
deriving DecidableEq

/-- Body of Prediction.output_iterator (prediction.py lines 111-128), as a
function of the tracked previous output, the current snapshot, and the
snapshots the remaining reloads will return.  Returns the list of yielded
elements and how the generator ends. -/
def outputIterAux {α : Type} : List α → JState α → List (JState α) → List α × IterEnd
  | prev, cur, [] =>
    if isTerminal cur.status then
      if cur.status = "failed" then ([], IterEnd.err cur.error)
      else ((orEmpty cur.output).drop prev.length, IterEnd.done)
    else ((orEmpty cur.output).drop prev.length, IterEnd.noFuel)
  | prev, cur, next :: rest =>
    if isTerminal cur.status then
      if cur.status = "failed" then ([], IterEnd.err cur.error)
      else ((orEmpty cur.output).drop prev.length, IterEnd.done)
    else
      let r := outputIterAux (orEmpty cur.output) next rest
      ((orEmpty cur.output).drop prev.length ++ r.1, r.2)

/-- Prediction.output_iterator: the generator starts with
`previous_output = self.output or []` and then runs its poll loop. -/
def outputIterator {α : Type} (cur : JState α) (future : List (JState α)) :
    List α × IterEnd :=
  outputIterAux (orEmpty cur.output) cur future

/-- Prediction.wait (prediction.py lines 103-109): poll (reload) while the
status is non-terminal.  Returns the snapshot in which a terminal status was
first observed together with the number of reloads performed, or none if the
observation fuel runs out while still non-terminal (the Python loop would
keep polling forever). -/
def wait {α : Type} : JState α → List (JState α) → Option (JState α × Nat)
  | cur, [] => if isTerminal cur.status then some (cur, 0) else none
  | cur, next :: rest =>
    if isTerminal cur.status then some (cur, 0)
    else (wait next rest).map fun p => (p.1, p.2 + 1)

/-- Modelled from the spec: the server-side status transition relation of a
job is not part of this client library; spec section 4.1 gives the state
machine `starting -> processing -> {succeeded | failed | canceled}`, with
starting and processing also allowed to move directly to canceled, and a
reload may observe an unchanged status. -/
inductive StatusStep : String → String → Prop where
  | observeSame (s : String) : StatusStep s s
  | startingToProcessing : StatusStep "starting" "processing"
  | processingToSucceeded : StatusStep "processing" "succeeded"
  | processingToFailed : StatusStep "processing" "failed"
  | processingToCanceled : StatusStep "processing" "canceled"
  | startingToCanceled : StatusStep "starting" "canceled"

/-- `b` extends `a` by appending elements at the end (how an array-typed
output grows between polls). -/
def growsTo {α : Type} (a b : List α) : Prop :=
  ∃ t, b = a ++ t

/-- The outputs of two adjacent observed snapshots grow. -/
def obsGrows {α : Type} (a b : JState α) : Prop :=
  growsTo (orEmpty a.output) (orEmpty b.output)

/-- The last snapshot of the observation sequence `cur :: mids` (the value
`previous_output` tracks when the loop leaves its non-terminal phase). -/
def lastObs {α : Type} : JState α → List (JState α) → JState α
  | cur, [] => cur
  | _, m :: mids => lastObs m mids

/-! Progress parser (Prediction.Progress, prediction.py lines 63-91).
The regular expression

  ^\s*(?P<percentage>\d+)%\s*\|.+?\|\s*(?P<current>\d+)\/(?P<total>\d+)

is embedded over lists of characters.  Whitespace and digits are modelled as
their ASCII classes.  The only regex operator needing backtracking here is
the lazy `.+?` followed by a literal bar: every other quantified class is
disjoint from the literal that follows it, so maximal-munch is exact. -/

/-- ASCII whitespace as matched by Python's \s and str.strip(). -/
def isSpace (c : Char) : Bool :=
  c = ' ' || c = '\t' || c = '\n' || c = '\r' || c = '\x0b' || c = '\x0c'

/-- Python str.strip(): remove leading and trailing whitespace. -/
def stripChars (s : List Char) : List Char :=
  ((s.dropWhile isSpace).reverse.dropWhile isSpace).reverse

/-- Numeric value of a digit run, as int() computes it. -/
def digitsVal (ds : List Char) : Nat :=
  ds.foldl (fun n c => 10 * n + (c.toNat - '0'.toNat)) 0

/-- Match \d+ greedily at the head: the maximal digit run (non-empty) and
the remainder. -/
def takeDigits (s : List Char) : Option (Nat × List Char) :=
  match s.takeWhile Char.isDigit with
  | [] => none
  | ds => some (digitsVal ds, s.dropWhile Char.isDigit)

/-- Match \s*(?P<current>\d+)\/(?P<total>\d+) at the head (the part after
the closing bar). -/
def barTail (s : List Char) : Option (Nat × Nat) :=
  match takeDigits (s.dropWhile isSpace) with
  | none => none
  | some (cur, s₁) =>
    match s₁ with
    | '/' :: s₂ =>
      match takeDigits s₂ with
      | none => none
      | some (tot, _) => some (cur, tot)
    | _ => none

/-- Backtracking search for the closing bar of the lazy `.+?\|`: try each
later bar in order, shortest first, until the tail after it matches. -/
def barSearch : List Char → Option (Nat × Nat)
  | [] => none
  | '|' :: rest =>
    match barTail rest with
    | some r => some r
    | none => barSearch rest
  | _ :: rest => barSearch rest

/-- re.match of Progress._pattern against a single (stripped) line: returns
the percentage, current and total captures on success.  Lines come from
splitting on newline, so the input contains no newline and `.` may be read
as any character. -/
def progressMatch (s : List Char) : Option (Nat × Nat × Nat) :=
  match takeDigits (s.dropWhile isSpace) with
  | none => none
  | some (pct, s₁) =>
    match s₁ with
    | '%' :: s₂ =>
      match s₂.dropWhile isSpace with
      | '|' :: s₃ =>
        match s₃ with
        | [] => none
        | _ :: s₄ =>
          match barSearch s₄ with
          | some (cur, tot) => some (pct, cur, tot)
          | none => none
      | _ => none
    | _ => none

/-- Prediction.Progress: percentage (a float in the source, a rational
here), current and total item counts. -/
structure Progress where
  percentage : ℚ
  current : Nat
  total : Nat
deriving DecidableEq

/-- `cls(percentage / 100.0, current, total)` from Progress.parse. -/
def mkProgress (r : Nat × Nat × Nat) : Progress :=
  ⟨(r.1 : ℚ) / 100, r.2.1, r.2.2⟩

/-- Python logs.split("\n"). -/
def splitLines : List Char → List (List Char)
  | [] => [[]]
  | c :: rest =>
    if c = '\n' then [] :: splitLines rest
    else
      match splitLines rest with
      | [] => [[c]]
      | l :: ls => (c :: l) :: ls

/-- Join lines with newline separators (left inverse of splitLines on
newline-free lines). -/
def joinLines : List (List Char) → List Char
  | [] => []
  | l :: ls =>
    match ls with
    | [] => l
    | _ :: _ => l ++ '\n' :: joinLines ls

/-- The `for i in reversed(range(len(lines)))` loop of Progress.parse, with
the lines already reversed: strip each line and return the first match.  The
source guards the return with `len(findall(line)) == 1`, but the pattern is
anchored at the start of the line, so findall returns exactly the one match
whenever match succeeds and the guard is always true. -/
def parseLoop : List (List Char) → Option Progress
  | [] => none
  | l :: rest =>
    match progressMatch (stripChars l) with
    | some r => some (mkProgress r)
    | none => parseLoop rest

/-- Prediction.Progress.parse: split the logs into lines and scan from the
last line backward for the most recent progress-bar line. -/
def Progress.parse (logs : List Char) : Option Progress :=
  parseLoop (splitLines logs).reverse

/-! Output mode selection and the run facade (Version.predict,
version.py lines 15-29). -/

/-- JSON values, as held in Version.openapi_schema. -/
inductive Json where
  | jnull
  | jbool (b : Bool)
  | jnum (n : Int)
  | jstr (s : String)
  | jarr (elems : List Json)
  | jobj (fields : List (String × Json))

/-- Python subscript obj[key]: a KeyError on a missing key, a TypeError when
the value subscripted is not a dict. -/
def getItem : Json → String → Except PyErr Json
  | Json.jobj fields, key =>
    match fields.lookup key with
    | some v => Except.ok v
    | none => Except.error (PyErr.keyError key)
  | _, _ => Except.error PyErr.typeError

/-- Python dict .get(key): none on a missing key; an AttributeError when the
receiver is not a dict. -/
def dictGet : Json → String → Except PyErr (Option Json)
  | Json.jobj fields, key => Except.ok (fields.lookup key)
  | _, _ => Except.error PyErr.attributeError

/-- Python `value == "array"` for a JSON value (or None): true exactly for
the string "array". -/
def isArrayStr : Option Json → Bool
  | some (Json.jstr s) => s = "array"
  | _ => false

/-- The output-mode check of Version.predict (version.py lines 20-23):
`self.openapi_schema["components"]["schemas"]["Output"].get("type") ==
"array"`, with the exceptions Python subscripting raises. -/
def outputIsArray (schema : Json) : Except PyErr Bool :=
  match getItem schema "components" with
  | Except.error e => Except.error e
  | Except.ok comps =>
    match getItem comps "schemas" with
    | Except.error e => Except.error e
    | Except.ok schemas =>
      match getItem schemas "Output" with
      | Except.error e => Except.error e
      | Except.ok out =>
        match dictGet out "type" with
        | Except.error e => Except.error e
        | Except.ok t => Except.ok (isArrayStr t)

/-- A model version: id, informational cog_version/created_at, and the
OpenAPI schema consulted by predict. -/
structure VersionRec where
  id : List Char
  created_at : String
  cog_version : String
  openapi_schema : Json

/-- What Version.predict returns: in incremental mode the (not yet
consumed) output iterator over the created prediction's observations, in
atomic mode the prediction's final output. -/
inductive RunResult (α : Type) where
  | incremental (cur : JState α) (future : List (JState α))
  | atomic (out : Option (List α))
deriving DecidableEq

/-- Version.predict (version.py lines 15-29) against the created
prediction's observation sequence `cur :: future`: after the creation call,
the Output schema type is consulted; in array mode the output iterator is
returned at once (no polling), otherwise wait polls to a terminal snapshot,
ModelError is raised if it failed, and its output is returned.  The outer
none models a wait loop that never observes a terminal status. -/
def predict {α : Type} (v : VersionRec) (cur : JState α)
    (future : List (JState α)) : Option (Except PyErr (RunResult α)) :=
  match outputIsArray v.openapi_schema with
  | Except.error e => some (Except.error e)
  | Except.ok true => some (Except.ok (RunResult.incremental cur future))
  | Except.ok false =>
    match wait cur future with
    | none => none
    | some (s, _) =>
      if s.status = "failed" then some (Except.error (PyErr.modelError s.error))
      else some (Except.ok (RunResult.atomic s.output))

/-! Creation endpoints: PredictionCollection.create (prediction.py lines
212-266) and TrainingCollection.create (training.py lines 144-212).  The
network boundary is modelled by returning the list of HTTP requests the call
issues together with its outcome; a validation failure returns an empty
request list. -/

/-- A value passed as an argument to create: an identifier string, a Version
object, or an input mapping. -/
inductive ArgVal where
  | aStr (s : List Char)
  | aVer (v : VersionRec)
  | aInput (j : Json)

/-- Modelled from the spec: encode_json with upload_file (replicate/json.py,
an out-of-scope pure encoding collaborator per spec sections 1 and 6) is
modelled as the identity on the input value; upload_file without an output
file prefix encodes files locally as base64 data URIs and issues no network
request. -/
def encodeJson (input : ArgVal) : ArgVal := input

/-- An HTTP request issued by a create call, with the body fields the source
assembles. -/
structure Request where
  method : String
  path : List Char
  versionField : Option (List Char)
  inputField : Option ArgVal
  destinationField : Option ArgVal
  webhook : Option (List Char)
  webhookCompleted : Option (List Char)
  webhookEventsFilter : Option (List (List Char))
  stream : Option Bool

/-- Positional-or-keyword argument resolution:
`args[i] if len(args) > i else kwargs.get(name)`. -/
def posArg (args : List ArgVal) (i : Nat) (kw : Option ArgVal) : Option ArgVal :=
  match args.get? i with
  | some a => some a
  | none => kw

/-- `version if isinstance(version, str) else version.id` from
PredictionCollection.create: attribute access .id on a value that is neither
a string nor a Version raises AttributeError. -/
def versionIdOf : ArgVal → Except PyErr (List Char)
  | ArgVal.aStr s => Except.ok s
  | ArgVal.aVer v => Except.ok v.id
  | ArgVal.aInput _ => Except.error PyErr.attributeError

/-- PredictionCollection.create: resolve version and input from positional
or keyword arguments, raising the validation ValueError locally (no request)
when either is missing, then POST /v1/predictions with the body fields. -/
def predictionCreate (args : List ArgVal) (kwVersion kwInput : Option ArgVal)
    (webhook webhookCompleted : Option (List Char))
    (webhookEventsFilter : Option (List (List Char))) (stream : Option Bool) :
    List Request × Except PyErr Unit :=
  match posArg args 0 kwVersion with
  | none => ([], Except.error (PyErr.valueError
      "A version identifier must be provided as a positional or keyword argument."))
  | some ver =>
    match posArg args 1 kwInput with
    | none => ([], Except.error (PyErr.valueError
        "An input must be provided as a positional or keyword argument."))
    | some inputArg =>
      match versionIdOf ver with
      | Except.error e => ([], Except.error e)
      | Except.ok vid =>
        ([{ method := "POST", path := ("/v1/predictions").toList,
            versionField := some vid, inputField := some (encodeJson inputArg),
            destinationField := none, webhook := webhook,
            webhookCompleted := webhookCompleted,
            webhookEventsFilter := webhookEventsFilter, stream := stream }],
          Except.ok ())

/-- The string the version regex of TrainingCollection.create is applied
to: `version.id if isinstance(version, Version) else version`; re.match
raises TypeError when handed a non-string. -/
def trainingVersionStr : ArgVal → Except PyErr (List Char)
  | ArgVal.aVer v => Except.ok v.id
  | ArgVal.aStr s => Except.ok s
  | ArgVal.aInput _ => Except.error PyErr.typeError

/-- Split at the first occurrence of c: the (c-free) prefix and the suffix
after it, or none when c does not occur. -/
def splitFirst (c : Char) : List Char → Option (List Char × List Char)
  | [] => none
  | x :: rest =>
    if x = c then some ([], rest)
    else
      match splitFirst c rest with
      | none => none
      | some (a, b) => some (x :: a, b)

/-- Python `(.+)$` closing a pattern: captures one or more non-newline
characters, with the $ anchor also matching just before a single trailing
newline (which is then not part of the capture). -/
def dotPlusCapture (v : List Char) : Option (List Char) :=
  let core := if v.getLast? = some '\n' then v.dropLast else v
  if core.isEmpty || core.any (fun c => c = '\n') then none else some core

/-- re.match of the pattern
^(?P<username>[^/]+)/(?P<model_name>[^:]+):(?P<version_id>.+)$ from
training.py lines 193-196: username is the non-empty slash-free text before
the first slash, model_name the non-empty colon-free text before the first
colon after it, version_id the rest matched by .+$ (each character class is
disjoint from its following literal, so no backtracking arises). -/
def versionGroups (s : List Char) : Option (List Char × List Char × List Char) :=
  match splitFirst '/' s with
  | none => none
  | some (username, rest) =>
    if username.isEmpty then none
    else
      match splitFirst ':' rest with
      | none => none
      | some (modelName, versionId) =>
        if modelName.isEmpty then none
        else
          match dotPlusCapture versionId with
          | none => none
          | some vcore => some (username, modelName, vcore)

/-- Whether the version identifier matches username/model_name:version_id. -/
def matchVersionFormat (s : List Char) : Bool :=
  (versionGroups s).isSome

/-- TrainingCollection.create: resolve version, destination and input
(validation ValueErrors are local), build the body, then split the version
identifier with the format regex; on no match raise ReplicateException with
no request issued, else POST to the per-version trainings path. -/
def trainingCreate (args : List ArgVal)
    (kwVersion kwDestination kwInput : Option ArgVal)
    (webhook webhookCompleted : Option (List Char))
    (webhookEventsFilter : Option (List (List Char))) :
    List Request × Except PyErr Unit :=
  match posArg args 0 kwVersion with
  | none => ([], Except.error (PyErr.valueError
      "A version identifier must be provided as a positional or keyword argument."))
  | some ver =>
    match posArg args 1 kwDestination with
    | none => ([], Except.error (PyErr.valueError
        "A destination must be provided as a positional or keyword argument."))
    | some dest =>
      match posArg args 2 kwInput with
      | none => ([], Except.error (PyErr.valueError
          "An input must be provided as a positional or keyword argument."))
      | some inputArg =>
        match trainingVersionStr ver with
        | Except.error e => ([], Except.error e)
        | Except.ok vid =>
          match versionGroups vid with
          | none => ([], Except.error (PyErr.replicateException
              "version must be in format username/model_name:version_id"))
          | some (username, modelName, versionId) =>
            ([{ method := "POST",
                path := ("/v1/models/").toList ++ username ++ ('/' :: modelName)
                  ++ ("/versions/").toList ++ versionId ++ ("/trainings").toList,
                versionField := none, inputField := some (encodeJson inputArg),
                destinationField := some dest, webhook := webhook,
                webhookCompleted := webhookCompleted,
                webhookEventsFilter := webhookEventsFilter, stream := none }],
              Except.ok ())

theorem growsTo_refl {α : Type} (a : List α) : growsTo a a :=
  ⟨[], by simp⟩

theorem growsTo_trans {α : Type} {a b c : List α}
    (hab : growsTo a b) (hbc : growsTo b c) : growsTo a c := by
  obtain ⟨t, rfl⟩ := hab
  obtain ⟨u, rfl⟩ := hbc
  exact ⟨t ++ u, by simp⟩

theorem growsTo_length {α : Type} {a b : List α} (h : growsTo a b) :
    a.length ≤ b.length := by
  obtain ⟨t, rfl⟩ := h
  simp

/-- Gluing the freshly appended suffixes of two successive polls: the
elements b adds over a, followed by the elements c adds over b, are exactly
the elements c adds over a. -/
theorem drop_glue {α : Type} {a b c : List α}
    (hab : growsTo a b) (hbc : growsTo b c) :
    b.drop a.length ++ c.drop b.length = c.drop a.length := by
  obtain ⟨t, rfl⟩ := hbc
  rw [List.drop_left, List.drop_append_eq_append_drop,
    Nat.sub_eq_zero_of_le (growsTo_length hab), List.drop_zero]

theorem lastObs_concat {α : Type} :
    ∀ (mids : List (JState α)) (cur last : JState α),
      lastObs cur (mids ++ [last]) = last
  | [], _, _ => rfl
  | m :: mids, _, last => lastObs_concat mids m last

theorem chain_growsTo_lastObs {α : Type} :
    ∀ (mids : List (JState α)) (cur : JState α),
      List.Chain' obsGrows (cur :: mids) →
      growsTo (orEmpty cur.output) (orEmpty (lastObs cur mids).output)
  | [], _, _ => growsTo_refl _
  | m :: mids, cur, h => by
    rw [List.chain'_cons] at h
    have ih := chain_growsTo_lastObs mids m h.2
    exact growsTo_trans h.1 ih

/-- Core lemma about the output_iterator poll loop: if every snapshot before
the last is non-terminal, the last is terminal, and outputs only grow along
the observations, then the loop yields exactly the elements appended beyond
the tracked prefix, and ends with ModelError exactly when the terminal status
is failed (in which case elements first appearing in the terminal snapshot
are not yielded). -/
theorem outputIterAux_terminal {α : Type} :
    ∀ (mids : List (JState α)) (cur : JState α) (prev : List α) (last : JState α),
      growsTo prev (orEmpty cur.output) →
      List.Chain' obsGrows (cur :: (mids ++ [last])) →
      (∀ s ∈ cur :: mids, isTerminal s.status = false) →
      isTerminal last.status = true →
      outputIterAux prev cur (mids ++ [last]) =
        if last.status = "failed" then
          ((orEmpty ((lastObs cur mids)).output).drop prev.length, IterEnd.err last.error)
        else ((orEmpty last.output).drop prev.length, IterEnd.done)
  | [], cur, prev, last, hprev, hchain, hmid, hlast => by
    have hcur : isTerminal cur.status = false := hmid cur (List.mem_cons_self _ _)
    rw [List.nil_append, List.chain'_cons] at hchain
    have hgrow : growsTo (orEmpty cur.output) (orEmpty last.output) := hchain.1
    have hglue := drop_glue hprev hgrow
    have htf : isTerminal "failed" = true := by decide
    by_cases hf : last.status = "failed"
    · simp [outputIterAux, lastObs, hcur, hlast, hf, htf]
    · simp [outputIterAux, lastObs, hcur, hlast, hf, hglue]
  | m :: mids, cur, prev, last, hprev, hchain, hmid, hlast => by
    have hcur : isTerminal cur.status = false := hmid cur (List.mem_cons_self _ _)
    rw [List.cons_append, List.chain'_cons] at hchain
    have hgrow : growsTo (orEmpty cur.output) (orEmpty m.output) := hchain.1
    have hmid' : ∀ s ∈ m :: mids, isTerminal s.status = false :=
      fun s hs => hmid s (List.mem_cons_of_mem _ hs)
    have ih := outputIterAux_terminal mids m (orEmpty cur.output) last
      hgrow hchain.2 hmid' hlast
    have hchainmid : List.Chain' obsGrows (m :: mids) := by
      have h2 := hchain.2
      rw [← List.cons_append] at h2
      exact (List.chain'_append.mp h2).1
    by_cases hf : last.status = "failed"
    · have hpen : growsTo (orEmpty cur.output) (orEmpty ((lastObs m mids)).output) :=
        growsTo_trans hgrow (chain_growsTo_lastObs mids m hchainmid)
      have hglue := drop_glue hprev hpen
      simp [outputIterAux, lastObs, hcur, hf, ih, hglue]
    · have hlastgrow : growsTo (orEmpty cur.output) (orEmpty last.output) := by
        have h := chain_growsTo_lastObs (mids ++ [last]) m hchain.2
        rw [lastObs_concat] at h
        exact growsTo_trans hgrow h
      have hglue := drop_glue hprev hlastgrow
      simp [outputIterAux, lastObs, hcur, hf, ih, hglue]

/-- Specification of Prediction.wait against an observation sequence:
if the current status is terminal, zero reloads happen; any returned pair
consists of the first terminal snapshot and the number of reloads that led
to it, with every earlier snapshot non-terminal. -/
theorem waitAuxSpec {α : Type} :
    ∀ (future : List (JState α)) (cur : JState α),
      (isTerminal cur.status = true → wait cur future = some (cur, 0)) ∧
      (∀ s n, wait cur future = some (s, n) →
        isTerminal s.status = true ∧ (cur :: future).get? n = some s ∧
          ∀ s' ∈ (cur :: future).take n, isTerminal s'.status = false)
  | [], cur => by
    constructor
    · intro ht
      simp [wait, ht]
    · intro s n h
      by_cases ht : isTerminal cur.status = true
      · simp [wait, ht] at h
        obtain ⟨rfl, rfl⟩ := h
        exact ⟨ht, rfl, by simp⟩
      · simp [wait, ht] at h
  | next :: rest, cur => by
    have ih := waitAuxSpec rest next
    constructor
    · intro ht
      simp [wait, ht]
    · intro s n h
      by_cases ht : isTerminal cur.status = true
      · simp [wait, ht] at h
        obtain ⟨rfl, rfl⟩ := h
        exact ⟨ht, rfl, by simp⟩
      · simp only [wait, ht, if_false, Bool.false_eq_true, Option.map_eq_some'] at h
        obtain ⟨⟨s', n'⟩, hw, hsn⟩ := h
        obtain ⟨hs, hn⟩ := Prod.mk.injEq .. ▸ hsn
        obtain ⟨hterm, hget, htake⟩ := ih.2 s' n' hw
        subst hs
        subst hn
        refine ⟨hterm, by simpa using hget, ?_⟩
        intro s' hs'
        rcases List.mem_cons.mp (by simpa using hs') with rfl | hmem
        · simpa using ht
        · exact htake s' hmem

theorem splitLines_no_nl : ∀ (l : List Char), ('\n' : Char) ∉ l → splitLines l = [l]
  | [], _ => rfl
  | c :: rest, h => by
    have hc : c ≠ '\n' := fun e => h (e ▸ List.mem_cons_self _ _)
    have ih := splitLines_no_nl rest (fun e => h (List.mem_cons_of_mem _ e))
    simp [splitLines, hc, ih]

theorem splitLines_append : ∀ (l rest : List Char), ('\n' : Char) ∉ l →
    splitLines (l ++ '\n' :: rest) = l :: splitLines rest
  | [], rest, _ => by simp [splitLines]
  | c :: l, rest, h => by
    have hc : c ≠ '\n' := fun e => h (e ▸ List.mem_cons_self _ _)
    have ih := splitLines_append l rest (fun e => h (List.mem_cons_of_mem _ e))
    simp [splitLines, hc, ih]

theorem splitLines_joinLines : ∀ (ls : List (List Char)), ls ≠ [] →
    (∀ l ∈ ls, ('\n' : Char) ∉ l) → splitLines (joinLines ls) = ls
  | [], h, _ => absurd rfl h
  | l :: ls, _, hnl => by
    cases ls with
    | nil => simpa [joinLines] using splitLines_no_nl l (hnl l (List.mem_cons_self _ _))
    | cons l₂ ls₂ =>
      have ih := splitLines_joinLines (l₂ :: ls₂) (by simp)
        (fun m hm => hnl m (List.mem_cons_of_mem _ hm))
      have hj : joinLines (l :: l₂ :: ls₂) = l ++ '\n' :: joinLines (l₂ :: ls₂) := rfl
      rw [hj, splitLines_append l _ (hnl l (List.mem_cons_self _ _)), ih]

theorem parseLoop_none : ∀ (ls : List (List Char)),
    (∀ x ∈ ls, progressMatch (stripChars x) = none) → parseLoop ls = none
  | [], _ => rfl
  | l :: ls, h => by
    have ih := parseLoop_none ls (fun x hx => h x (List.mem_cons_of_mem _ hx))
    simp [parseLoop, h l (List.mem_cons_self _ _), ih]

theorem parseLoop_append_none : ∀ (xs ys : List (List Char)),
    (∀ x ∈ xs, progressMatch (stripChars x) = none) →
    parseLoop (xs ++ ys) = parseLoop ys
  | [], _, _ => rfl
  | x :: xs, ys, h => by
    have ih := parseLoop_append_none xs ys (fun m hm => h m (List.mem_cons_of_mem _ hm))
    simp [parseLoop, h x (List.mem_cons_self _ _), ih]

theorem splitFirst_eq_none {c : Char} :
    ∀ {s : List Char}, c ∉ s → splitFirst c s = none
  | [], _ => rfl
  | x :: rest, h => by
    have hx : ¬(x = c) := fun e => h (e ▸ List.mem_cons_self _ _)
    have ih := splitFirst_eq_none (fun e => h (List.mem_cons_of_mem _ e))
    simp [splitFirst, hx, ih]

/-- Behaviour of the embedded progress pattern on a battery of concrete
lines, agreeing with Python's re on the same inputs. -/
theorem progressMatch_examples :
    progressMatch (stripChars ("20%|\u2588\u2588        | 1/5 [00:00<00:01, 21.38it/s]").toList)
        = some (20, 1, 5) ∧
    progressMatch (stripChars (" 0%|          | 0/5 [00:00<?, ?it/s]").toList)
        = some (0, 0, 5) ∧
    progressMatch ("200%|x|7/3").toList = some (200, 7, 3) ∧
    progressMatch ("5%|ab|cd|1/2").toList = some (5, 1, 2) ∧
    progressMatch ("5%||1/2").toList = none ∧
    progressMatch ("5 %|x|1/2").toList = none ∧
    progressMatch ("abc 5%|x|1/2").toList = none ∧
    progressMatch ("5%|x|1/2/3").toList = some (5, 1, 2) ∧
    progressMatch ("Using seed: 12345").toList = none ∧
    progressMatch ("7%|x|12a/34").toList = none ∧
    progressMatch ("7%|a|b| 9/9").toList = some (7, 9, 9) ∧
    progressMatch ("3%| |1/2").toList = some (3, 1, 2) ∧
    progressMatch ("3%|x| 1 /2").toList = none ∧
    progressMatch (stripChars ("  12%\t|bar| \t 3/9").toList) = some (12, 3, 9) ∧
    progressMatch ("5%|x|1/").toList = none ∧
    progressMatch ("5%|x1/2").toList = none ∧
    progressMatch ("10%|x|1/2 then 20%|y|3/4").toList = some (10, 1, 2) := by
  repeat' apply And.intro
  all_goals decide

/-- The parse loop reports the most recent matching line of a multi-line
log. -/
theorem progressParse_example :
    Progress.parse ("a\n10%|x| 1/5\n20%|x| 2/5\ntail").toList
      = some (mkProgress (20, 2, 5)) := rfl

/-- Behaviour of the embedded version-format pattern on a battery of
concrete identifiers, agreeing with Python's re on the same inputs
(including the $-before-trailing-newline cases). -/
theorem versionFormat_examples :
    matchVersionFormat ("owner/name:abc123").toList = true ∧
    matchVersionFormat ("abc123").toList = false ∧
    matchVersionFormat ("owner/name").toList = false ∧
    matchVersionFormat ("/name:abc").toList = false ∧
    matchVersionFormat ("owner/:abc").toList = false ∧
    matchVersionFormat ("owner/name:").toList = false ∧
    versionGroups ("a/b:c:d").toList = some (['a'], ['b'], ['c', ':', 'd']) ∧
    versionGroups ("a/b/c:d").toList = some (['a'], ['b', '/', 'c'], ['d']) ∧
    versionGroups ("a/b:c\n").toList = some (['a'], ['b'], ['c']) ∧
    versionGroups ("a/b:\n").toList = none ∧
    versionGroups ("a/b:c\nd").toList = none ∧
    versionGroups ("a/b:c\n\n").toList = none ∧
    versionGroups ("a/b\nc:d").toList = some (['a'], ['b', '\n', 'c'], ['d']) := by
  repeat' apply And.intro
  all_goals decide

/-- C1 (amended): for observations whose outputs only grow (each poll's
output extends the previous one), with every snapshot before the last
non-terminal and the last one succeeded, output_iterator yields exactly the
elements appended strictly after its first observation — each exactly once,
in arrival order, with no duplicates even when polls return overlapping
prefixes — and ends normally.  Elements already present in the first
observed output are skipped (previous_output is initialised to the current
output); when the first observed output is empty this is precisely the
claim: every output element is yielded exactly once, in order. -/
theorem outputIterator_growing_yields_suffix {α : Type}
    (cur : JState α) (mids : List (JState α)) (last : JState α)
    (hchain : List.Chain' obsGrows (cur :: (mids ++ [last])))
    (hmid : ∀ s ∈ cur :: mids, isTerminal s.status = false)
    (hlast : last.status = "succeeded") :
    outputIterator cur (mids ++ [last]) =
      ((orEmpty last.output).drop (orEmpty cur.output).length, IterEnd.done) := by
  have hterm : isTerminal last.status = true := by rw [hlast]; decide
  have h := outputIterAux_terminal mids cur (orEmpty cur.output) last
    (growsTo_refl _) hchain hmid hterm
  rw [outputIterator, h, if_neg (by rw [hlast]; decide)]

/-- C1 witness: over the spec's example growth [], [0], [0, 1], [0, 1, 2]
ending succeeded, the iterator yields exactly 0, 1, 2 in order. -/
theorem outputIterator_growing_yields_suffix_witness :
    outputIterator (⟨"starting", none, none⟩ : JState Nat)
        ([⟨"processing", some [0], none⟩, ⟨"processing", some [0, 1], none⟩] ++
          [⟨"succeeded", some [0, 1, 2], none⟩]) =
      ((orEmpty (some [0, 1, 2])).drop
          (orEmpty (none : Option (List Nat))).length, IterEnd.done) :=
  outputIterator_growing_yields_suffix _ _ _
    (List.chain'_cons.mpr ⟨⟨[0], rfl⟩, List.chain'_cons.mpr ⟨⟨[1], rfl⟩,
      List.chain'_cons.mpr ⟨⟨[2], rfl⟩, List.chain'_singleton _⟩⟩⟩)
    (List.forall_mem_cons.mpr ⟨by decide, List.forall_mem_cons.mpr ⟨by decide,
      List.forall_mem_cons.mpr ⟨by decide, List.forall_mem_nil _⟩⟩⟩)
    rfl

/-- C1 counterexample: a prediction whose output is [0] at the first
observation and still [0] (a trivially growing reload sequence) when the
status becomes succeeded.  The claim as stated says every output element is
yielded exactly once, but element 0 is never yielded: output_iterator
initialises previous_output to the already-present output, so it yields
nothing here. -/
theorem outputIterator_skips_initial_cex :
    growsTo ([0] : List Nat) [0] ∧
    outputIterator (⟨"processing", some [0], none⟩ : JState Nat)
        [⟨"succeeded", some [0], none⟩] = ([], IterEnd.done) :=
  ⟨⟨[], by decide⟩, by decide⟩

/-- C3 (amended): on reaching a terminal snapshot (with growing outputs and
all earlier snapshots non-terminal), output_iterator yields the elements
appended up to the last non-terminal observation; if the terminal status is
succeeded or canceled it also yields the suffix first appearing in the
terminal snapshot and ends normally, but if the status is failed it raises
ModelError(job.error) at that point, without yielding the elements first
appearing in the failed snapshot. -/
theorem outputIterator_terminal_behavior {α : Type}
    (cur : JState α) (mids : List (JState α)) (last : JState α)
    (hchain : List.Chain' obsGrows (cur :: (mids ++ [last])))
    (hmid : ∀ s ∈ cur :: mids, isTerminal s.status = false)
    (hterm : isTerminal last.status = true) :
    outputIterator cur (mids ++ [last]) =
      if last.status = "failed" then
        ((orEmpty ((lastObs cur mids)).output).drop (orEmpty cur.output).length,
          IterEnd.err last.error)
      else ((orEmpty last.output).drop (orEmpty cur.output).length, IterEnd.done) :=
  outputIterAux_terminal mids cur (orEmpty cur.output) last
    (growsTo_refl _) hchain hmid hterm

/-- C3 witness: a job that yields 5 while processing and then fails having
appended 6 raises ModelError with the job's error text after yielding only
the elements observed before the failed snapshot. -/
theorem outputIterator_terminal_behavior_witness :
    outputIterator (⟨"starting", none, none⟩ : JState Nat)
        ([⟨"processing", some [5], none⟩] ++ [⟨"failed", some [5, 6], some "E"⟩]) =
      if ("failed" : String) = "failed" then
        ((orEmpty (some [5])).drop (orEmpty (none : Option (List Nat))).length,
          IterEnd.err (some "E"))
      else ((orEmpty (some [5, 6])).drop
        (orEmpty (none : Option (List Nat))).length, IterEnd.done) :=
  outputIterator_terminal_behavior _ _ _
    (List.chain'_cons.mpr ⟨⟨[5], rfl⟩, List.chain'_cons.mpr ⟨⟨[6], rfl⟩,
      List.chain'_singleton _⟩⟩)
    (List.forall_mem_cons.mpr ⟨by decide, List.forall_mem_cons.mpr ⟨by decide,
      List.forall_mem_nil _⟩⟩)
    (by decide)

/-- C3 counterexample: a job observed processing with no output that fails
with output [0] and error "boom".  The claim as stated says the final new
element 0 is yielded and only then ModelError is raised; the code raises
ModelError immediately and yields nothing. -/
theorem outputIterator_failed_drops_suffix_cex :
    outputIterator (⟨"processing", none, none⟩ : JState Nat)
        [⟨"failed", some [0], some "boom"⟩] = ([], IterEnd.err (some "boom")) ∧
    outputIterator (⟨"processing", none, none⟩ : JState Nat)
        [⟨"failed", some [0], some "boom"⟩] ≠ ([0], IterEnd.err (some "boom")) :=
  ⟨by decide, by decide⟩

/-- C5: in the spec-modelled job status state machine, terminal statuses
(succeeded, failed, canceled, as tested by prediction.py's isTerminal check)
are absorbing: once a terminal status is observed, every status reachable by
further transitions — hence every subsequent reload, and any client
operation — returns that same status. -/
theorem terminal_status_absorbing (s t : String)
    (hs : isTerminal s = true)
    (h : Relation.ReflTransGen StatusStep s t) : t = s := by
  induction h with
  | refl => rfl
  | tail hab hbc ih =>
    rw [ih] at hbc
    cases hbc
    all_goals first
      | rfl
      | exact absurd hs (by decide)

/-- C5 witness: succeeded is terminal and absorbs the reflexive chain. -/
theorem terminal_status_absorbing_witness :
    isTerminal "succeeded" = true ∧ ("succeeded" : String) = "succeeded" :=
  ⟨by decide, terminal_status_absorbing "succeeded" "succeeded" (by decide)
    Relation.ReflTransGen.refl⟩

/-- C6: wait performs reload polls only while the status is non-terminal
and returns as soon as a terminal status is observed: on an already-terminal
job it performs zero reloads, and whenever it returns after n reloads, the
n-th observed snapshot is the first terminal one — every snapshot polled
before it is non-terminal, so no poll happens after terminal status is first
observed. -/
theorem wait_polls_until_terminal {α : Type}
    (cur : JState α) (future : List (JState α)) :
    (isTerminal cur.status = true → wait cur future = some (cur, 0)) ∧
    (∀ s n, wait cur future = some (s, n) →
      isTerminal s.status = true ∧ (cur :: future).get? n = some s ∧
        ∀ s' ∈ (cur :: future).take n, isTerminal s'.status = false) :=
  waitAuxSpec future cur

/-- C6 witness: an already-succeeded job waits with zero reloads, and a job
that becomes terminal after one reload polled exactly the one non-terminal
snapshot. -/
theorem wait_polls_until_terminal_witness :
    wait (⟨"succeeded", none, none⟩ : JState Nat) [] =
        some (⟨"succeeded", none, none⟩, 0) ∧
      (isTerminal (JState.status (α := Nat) ⟨"canceled", none, none⟩) = true ∧
        ((⟨"starting", none, none⟩ : JState Nat) ::
            [⟨"canceled", none, none⟩]).get? 1 = some ⟨"canceled", none, none⟩ ∧
        ∀ s' ∈ ((⟨"starting", none, none⟩ : JState Nat) ::
            [⟨"canceled", none, none⟩]).take 1, isTerminal s'.status = false) :=
  ⟨(wait_polls_until_terminal ⟨"succeeded", none, none⟩ []).1 (by decide),
    (wait_polls_until_terminal ⟨"starting", none, none⟩
      [⟨"canceled", none, none⟩]).2 ⟨"canceled", none, none⟩ 1 (by decide)⟩

/-- C4: Progress.parse splits the log text into lines and scans from the
last line backward.  (i) When the text is assembled from lines pre, a line l
matching the pattern, and trailing lines post none of which match, the
result is taken from l — the most recent matching line, not the first — as
percentage/100, current and total.  (ii) When no line of the logs matches,
the parser returns absent. -/
theorem progress_parse_last_match (pre post : List (List Char)) (l : List Char)
    (logs : List Char)
    (hnl : ∀ m ∈ pre ++ l :: post, ('\n' : Char) ∉ m)
    (hl : (progressMatch (stripChars l)).isSome = true)
    (hpost : ∀ m ∈ post, progressMatch (stripChars m) = none) :
    Progress.parse (joinLines (pre ++ l :: post)) =
      (progressMatch (stripChars l)).map mkProgress ∧
    ((∀ m ∈ splitLines logs, progressMatch (stripChars m) = none) →
      Progress.parse logs = none) := by
  constructor
  · rw [Progress.parse, splitLines_joinLines _ (by simp) hnl,
      List.reverse_append, List.reverse_cons, List.append_assoc]
    rw [parseLoop_append_none _ _ (fun x hx => hpost x (List.mem_reverse.mp hx))]
    obtain ⟨r, hr⟩ := Option.isSome_iff_exists.mp hl
    simp [parseLoop, hr]
  · intro h
    exact parseLoop_none _ (fun x hx => h x (List.mem_reverse.mp hx))

/-- C4 witness: with an earlier progress line, a later one, and a trailing
non-matching line, the parser reports the later line; logs with no progress
line parse to none. -/
theorem progress_parse_last_match_witness :
    Progress.parse (joinLines ([("10%|x| 1/5").toList] ++
        ("20%|xx| 2/5").toList :: [("done").toList])) =
      (progressMatch (stripChars ("20%|xx| 2/5").toList)).map mkProgress ∧
    ((∀ m ∈ splitLines ("no bars\nhere").toList,
        progressMatch (stripChars m) = none) →
      Progress.parse ("no bars\nhere").toList = none) :=
  progress_parse_last_match [("10%|x| 1/5").toList] [("done").toList]
    ("20%|xx| 2/5").toList ("no bars\nhere").toList
    (by decide) (by decide) (by decide)

theorem parseLoop_shape : ∀ (ls : List (List Char)) (p : Progress),
    parseLoop ls = some p → ∃ r, p = mkProgress r
  | [], p, h => by simp [parseLoop] at h
  | l :: ls, p, h => by
    cases hm : progressMatch (stripChars l) with
    | some r =>
      simp [parseLoop, hm] at h
      exact ⟨r, h.symm⟩
    | none =>
      simp [parseLoop, hm] at h
      exact parseLoop_shape ls p h

/-- C9 (amended): every Progress value the parser returns has percentage of
the form n/100 for a captured non-negative integer n — in particular
percentage ≥ 0 — and current and total are non-negative integers (naturals
by construction in this embedding).  The claimed upper bounds
percentage ≤ 1 and current ≤ total do not hold in general. -/
theorem progress_parse_fields (logs : List Char) (p : Progress)
    (h : Progress.parse logs = some p) :
    0 ≤ p.percentage ∧ ∃ n : ℕ, p.percentage = (n : ℚ) / 100 := by
  obtain ⟨r, rfl⟩ := parseLoop_shape _ p h
  exact ⟨div_nonneg (Nat.cast_nonneg _) (by norm_num), ⟨r.1, rfl⟩⟩

/-- C9 witness: the parsed line 20%|x| 1/5 yields a Progress with
non-negative percentage of shape n/100. -/
theorem progress_parse_fields_witness :
    0 ≤ (mkProgress (20, 1, 5)).percentage ∧
      ∃ n : ℕ, (mkProgress (20, 1, 5)).percentage = (n : ℚ) / 100 :=
  progress_parse_fields ("20%|x| 1/5").toList (mkProgress (20, 1, 5)) rfl

/-- C9 counterexample: on the log line 200%|x|7/3 the parser returns
percentage 2 (outside [0,1]) and current 7 > total 3, refuting both claimed
bounds. -/
theorem progress_bounds_cex :
    Progress.parse ("200%|x|7/3").toList = some (mkProgress (200, 7, 3)) ∧
    ¬((mkProgress (200, 7, 3)).percentage ≤ 1) ∧
    ¬((mkProgress (200, 7, 3)).current ≤ (mkProgress (200, 7, 3)).total) := by
  refine ⟨rfl, ?_, by decide⟩
  norm_num [mkProgress]

/-- C2 counterexample: a components.schemas object with no Output entry.
The claim says the mode check treats this as atomic and never raises; the
code's subscript raises KeyError("Output") instead of returning a mode. -/
theorem outputIsArray_missing_output_cex :
    outputIsArray (Json.jobj [("components", Json.jobj [("schemas", Json.jobj [])])])
      = Except.error (PyErr.keyError "Output") ∧
    outputIsArray (Json.jobj [("components", Json.jobj [("schemas", Json.jobj [])])])
      ≠ Except.ok false := by
  have h1 : outputIsArray
      (Json.jobj [("components", Json.jobj [("schemas", Json.jobj [])])])
      = Except.error (PyErr.keyError "Output") := rfl
  refine ⟨h1, fun h => ?_⟩
  rw [h1] at h
  exact Except.noConfusion h

/-- C2 (amended): for a schema with components.schemas present, when an
Output entry exists as an object, the mode decision is
Output.type == "array" (an absent or non-"array" type means atomic, without
error); but when the Output entry is missing entirely the check raises
KeyError("Output") rather than falling back to atomic mode. -/
theorem outputIsArray_modes (fields : List (String × Json)) :
    (fields.lookup "Output" = none →
      outputIsArray (Json.jobj [("components", Json.jobj [("schemas", Json.jobj fields)])])
        = Except.error (PyErr.keyError "Output")) ∧
    (∀ ofields, fields.lookup "Output" = some (Json.jobj ofields) →
      outputIsArray (Json.jobj [("components", Json.jobj [("schemas", Json.jobj fields)])])
        = Except.ok (isArrayStr (ofields.lookup "type"))) := by
  constructor
  · intro h
    simp [outputIsArray, getItem, dictGet, h]
  · intro ofields h
    simp [outputIsArray, getItem, dictGet, h]

/-- C2 witness: an Output of type string selects atomic mode without error;
an Output of type array selects incremental mode. -/
theorem outputIsArray_modes_witness :
    outputIsArray (Json.jobj [("components", Json.jobj [("schemas",
        Json.jobj [("Output", Json.jobj [("type", Json.jstr "string")])])])])
      = Except.ok (isArrayStr ([("type", Json.jstr "string")].lookup "type")) ∧
    outputIsArray (Json.jobj [("components", Json.jobj [("schemas",
        Json.jobj [("Output", Json.jobj [("type", Json.jstr "array")])])])])
      = Except.ok (isArrayStr ([("type", Json.jstr "array")].lookup "type")) :=
  ⟨(outputIsArray_modes [("Output", Json.jobj [("type", Json.jstr "string")])]).2
      [("type", Json.jstr "string")] rfl,
    (outputIsArray_modes [("Output", Json.jobj [("type", Json.jstr "array")])]).2
      [("type", Json.jstr "array")] rfl⟩

/-- C7: Version.predict in incremental mode (Output.type == "array")
returns the output iterator over the created prediction immediately — with
no condition on the observation sequence, in particular without waiting for
a terminal state; in atomic mode it waits for the terminal snapshot, raises
ModelError carrying the job's error text when that snapshot's status is
failed, and otherwise returns the job's output once. -/
theorem predict_mode {α : Type} (v : VersionRec) (cur : JState α)
    (future : List (JState α)) :
    (outputIsArray v.openapi_schema = Except.ok true →
      predict v cur future = some (Except.ok (RunResult.incremental cur future))) ∧
    (∀ s n, outputIsArray v.openapi_schema = Except.ok false →
      wait cur future = some (s, n) →
      predict v cur future =
        some (if s.status = "failed" then Except.error (PyErr.modelError s.error)
          else Except.ok (RunResult.atomic s.output))) := by
  constructor
  · intro h
    simp [predict, h]
  · intro s n h hw
    by_cases hf : s.status = "failed"
    · simp [predict, h, hw, hf]
    · simp [predict, h, hw, hf]

/-- C7 witness: with an array-typed Output schema, predict returns the
iterator at once on a still-starting, never-terminating observation
sequence; with a string-typed Output schema it waits and returns the output
of the succeeded snapshot. -/
theorem predict_mode_witness :
    predict ⟨[], "", "",
        Json.jobj [("components", Json.jobj [("schemas",
          Json.jobj [("Output", Json.jobj [("type", Json.jstr "array")])])])]⟩
        (⟨"starting", none, none⟩ : JState Nat) [] =
      some (Except.ok (RunResult.incremental ⟨"starting", none, none⟩ [])) ∧
    predict ⟨[], "", "",
        Json.jobj [("components", Json.jobj [("schemas",
          Json.jobj [("Output", Json.jobj [("type", Json.jstr "string")])])])]⟩
        (⟨"starting", none, none⟩ : JState Nat) [⟨"succeeded", some [7], none⟩] =
      some (if ("succeeded" : String) = "failed"
        then Except.error (PyErr.modelError none)
        else Except.ok (RunResult.atomic (some [7]))) :=
  ⟨(predict_mode _ _ _).1 rfl,
    (predict_mode _ ⟨"starting", none, none⟩ [⟨"succeeded", some [7], none⟩]).2
      ⟨"succeeded", some [7], none⟩ 1 rfl (by decide)⟩

/-- C8: PredictionCollection.create validates its arguments locally, before
any network request: when no version is supplied (positionally or as a
keyword) it raises the version validation error, and when a version is
supplied but no input it raises the input validation error — in both cases
with an empty list of issued requests. -/
theorem prediction_create_validation (args : List ArgVal)
    (kwVersion kwInput : Option ArgVal)
    (webhook webhookCompleted : Option (List Char))
    (webhookEventsFilter : Option (List (List Char))) (stream : Option Bool) :
    (posArg args 0 kwVersion = none →
      predictionCreate args kwVersion kwInput webhook webhookCompleted
          webhookEventsFilter stream =
        ([], Except.error (PyErr.valueError
          "A version identifier must be provided as a positional or keyword argument."))) ∧
    (∀ ver, posArg args 0 kwVersion = some ver → posArg args 1 kwInput = none →
      predictionCreate args kwVersion kwInput webhook webhookCompleted
          webhookEventsFilter stream =
        ([], Except.error (PyErr.valueError
          "An input must be provided as a positional or keyword argument."))) := by
  constructor
  · intro h
    simp [predictionCreate, h]
  · intro ver hv hi
    simp [predictionCreate, hv, hi]

/-- C8 witness: calling create with no arguments raises the version
validation error with no request; supplying only a version raises the input
validation error with no request. -/
theorem prediction_create_validation_witness :
    predictionCreate [] none none none none none none =
      ([], Except.error (PyErr.valueError
        "A version identifier must be provided as a positional or keyword argument.")) ∧
    predictionCreate [] (some (ArgVal.aStr ("owner/name:v1").toList)) none
        none none none none =
      ([], Except.error (PyErr.valueError
        "An input must be provided as a positional or keyword argument.")) :=
  ⟨(prediction_create_validation [] none none none none none none).1 rfl,
    (prediction_create_validation [] (some (ArgVal.aStr ("owner/name:v1").toList))
        none none none none none).2 (ArgVal.aStr ("owner/name:v1").toList) rfl rfl⟩

/-- C10: TrainingCollection.create, when version, destination and input are
all supplied, applies the version-format regex to the identifier string (the
id field when a Version object is passed) and raises ReplicateException with
an empty request list — before any network request — whenever it does not
match username/model_name:version_id; and a Version object whose id
contains no slash (a bare version hash) never matches the format, so every
such call with a Version object fails this way. -/
theorem training_create_version_format (args : List ArgVal)
    (kwVersion kwDestination kwInput : Option ArgVal)
    (webhook webhookCompleted : Option (List Char))
    (webhookEventsFilter : Option (List (List Char))) (v : VersionRec) :
    (∀ ver dest inp vid, posArg args 0 kwVersion = some ver →
      posArg args 1 kwDestination = some dest → posArg args 2 kwInput = some inp →
      trainingVersionStr ver = Except.ok vid → matchVersionFormat vid = false →
      trainingCreate args kwVersion kwDestination kwInput webhook
          webhookCompleted webhookEventsFilter =
        ([], Except.error (PyErr.replicateException
          "version must be in format username/model_name:version_id"))) ∧
    (('/' : Char) ∉ v.id → matchVersionFormat v.id = false) := by
  constructor
  · intro ver dest inp vid hv hd hi hs hm
    have hm' : versionGroups vid = none := by
      cases hg : versionGroups vid with
      | none => rfl
      | some g => rw [matchVersionFormat, hg] at hm; simp at hm
    simp [trainingCreate, hv, hd, hi, hs, hm']
  · intro h
    rw [matchVersionFormat, versionGroups, splitFirst_eq_none h]
    rfl

/-- C10 witness: passing a Version object with the bare hash id abc123
(together with a destination and an input) raises the format
ReplicateException with no request, and that id indeed contains no slash and
fails the format check. -/
theorem training_create_version_format_witness :
    trainingCreate [] (some (ArgVal.aVer ⟨("abc123").toList, "", "", Json.jnull⟩))
        (some (ArgVal.aStr ("me/new-model").toList))
        (some (ArgVal.aInput (Json.jobj []))) none none none =
      ([], Except.error (PyErr.replicateException
        "version must be in format username/model_name:version_id")) ∧
    matchVersionFormat (VersionRec.id ⟨("abc123").toList, "", "", Json.jnull⟩) = false :=
  ⟨(training_create_version_format [] _ _ _ none none none
        ⟨("abc123").toList, "", "", Json.jnull⟩).1
      (ArgVal.aVer ⟨("abc123").toList, "", "", Json.jnull⟩)
      (ArgVal.aStr ("me/new-model").toList) (ArgVal.aInput (Json.jobj []))
      (("abc123").toList) rfl rfl rfl rfl (by decide),
    (training_create_version_format [] none none none none none none
        ⟨("abc123").toList, "", "", Json.jnull⟩).2 (by decide)⟩

end Replicate
